import Mathlib

/-!
A shallow embedding of the DNS client's wire-format codec.

The encoder is translated from `src/client/dns_query.py` (class `DNSQuery`)
and the decoder from `src/dns_response.py` (class `DNSResponse`).

Modelling conventions:
* Python `bytes` buffers, and Python strings in the places where the code
  immediately encodes or decodes them as UTF-8, are modelled as `List Nat`
  (each element a byte value `< 256` in every well-formed buffer).  Splitting
  a Python string on the character `'.'` coincides with splitting its UTF-8
  byte sequence on the byte 46, because 0x2E never occurs inside a multi-byte
  UTF-8 sequence.
* A Python function that can raise (struct.error, IndexError, OverflowError,
  ValueError, OSError, RecursionError) is modelled as returning `Option`,
  `none` standing for the raised exception.  The program defines no error
  classes of its own.
* `secrets.randbelow(65536)` is modelled by making the random draw an explicit
  parameter `r`; one fresh `r` per call.
* Python slicing `buf[a:b]` silently truncates at the end of the buffer and
  is modelled by `(buf.drop a).take (b - a)`; Python indexing `buf[i]` raises
  `IndexError` out of range and is modelled by `buf.get? i`.
* Decoded label slices pass through `.decode("utf-8")` in the source, which
  can raise on bytes that are not valid UTF-8; modelling labels as raw bytes
  elides that failure mode.  Every concrete buffer in the theorems below
  uses ASCII label bytes, for which the decode never raises.
-/

/-- Byte strings are lists of natural numbers (each `< 256` on the wire). -/
abbrev Bytes := List Nat

/-! ## Encoder: `src/client/dns_query.py` -/

/-- Translation of `DNSQuery.generate_transaction_id` (dns_query.py lines
9-14): `secrets.randbelow(65536)`.  The random draw is the explicit
parameter `r`; the call returns a value in `[0, 65536)`. -/
def generate_transaction_id (r : Nat) : Nat := r % 65536

/-- The first packed flag byte of the query header (dns_query.py lines
53-57): `(qr << 7) | (opcode << 3) | (aa << 2) | (tc << 1) | rd`. -/
def packFlagsByte1 (qr opcode aa tc rd : Nat) : Nat :=
  (qr <<< 7) ||| (opcode <<< 3) ||| (aa <<< 2) ||| (tc <<< 1) ||| rd

/-- The second packed flag byte of the query header (dns_query.py lines
60-62): `(ra << 7) | (z << 4) | rcode`. -/
def packFlagsByte2 (ra z rcode : Nat) : Nat :=
  (ra <<< 7) ||| (z <<< 4) ||| rcode

/-- Big-endian two-byte encoding of a 16-bit value, as produced by
`struct.pack` with format `>H` and by `int.to_bytes(2, 'big')`. -/
def beBytes2 (n : Nat) : Bytes := [n / 256, n % 256]

/-- Translation of `DNSQuery.create_dns_query_header` (dns_query.py lines
16-71).  The `id` argument is accepted but, exactly as in the source
(line 37 `id = self.generate_transaction_id()`), unconditionally replaced by
a fresh random draw, so it never influences the result.  `struct.pack`
with format `>HBBHHHH` raises `struct.error` when an argument is out of
range for its field; that is the `none` case. -/
def create_dns_query_header (r : Nat) (id : Option Nat)
    (qr opcode aa tc rd ra z rcode qdcount ancount nscount arcount : Nat) :
    Option Bytes :=
  let rid := generate_transaction_id r
  let b1 := packFlagsByte1 qr opcode aa tc rd
  let b2 := packFlagsByte2 ra z rcode
  if rid < 65536 ∧ b1 < 256 ∧ b2 < 256 ∧ qdcount < 65536 ∧ ancount < 65536 ∧
      nscount < 65536 ∧ arcount < 65536 then
    some (beBytes2 rid ++ [b1, b2] ++ beBytes2 qdcount ++ beBytes2 ancount ++
      beBytes2 nscount ++ beBytes2 arcount)
  else none

/-- Python `str.split('.')` on the UTF-8 byte representation of a domain
string: split on the byte 46.  Like Python's `split` with an explicit
separator, the result is always non-empty and keeps empty parts. -/
def splitOnDot : Bytes → List Bytes
  | [] => [[]]
  | b :: rest =>
    if b = 46 then [] :: splitOnDot rest
    else
      match splitOnDot rest with
      | [] => [[b]]
      | p :: ps => (b :: p) :: ps

/-- The label bytes built by the loop in `DNSQuery.create_dns_query_question`
(dns_query.py lines 92-94): each part emitted as a one-byte length prefix
followed by its raw bytes, with no validation of label length or emptiness.
(Total function; the one run-time failure, a part longer than 255 bytes,
is handled in `encodeLabels`.) -/
def encodeLabelsBytes : List Bytes → Bytes
  | [] => []
  | p :: ps => p.length :: (p ++ encodeLabelsBytes ps)

/-- The same loop with its failure case: `bytes([len(part)])` raises
`ValueError` when the part's length does not fit in one byte.  There is no
other check: empty parts and parts of 64 or more bytes are emitted as-is. -/
def encodeLabels : List Bytes → Option Bytes
  | [] => some []
  | p :: ps =>
    if p.length ≤ 255 then
      (encodeLabels ps).map fun rest => p.length :: (p ++ rest)
    else none

/-- Two-byte big-endian encoding via `int.to_bytes(2, byteorder='big')`,
which raises `OverflowError` when the value does not fit. -/
def toBytes2 (n : Nat) : Option Bytes :=
  if n < 65536 then some (beBytes2 n) else none

/-- Translation of `DNSQuery.create_dns_query_question` (dns_query.py lines
73-97): split the domain on dots, emit each part length-prefixed, terminate
with a zero byte, then append qtype and qclass as big-endian 16-bit values. -/
def create_dns_query_question (domain : Bytes) (qtype qclass : Nat) :
    Option Bytes :=
  match encodeLabels (splitOnDot domain), toBytes2 qtype, toBytes2 qclass with
  | some name, some qt, some qc => some (name ++ 0 :: (qt ++ qc))
  | _, _, _ => none

/-- Translation of `DNSQuery.create_dns_query` (dns_query.py lines 99-107):
header with all default arguments concatenated with the question with
default qtype = qclass = 1. -/
def create_dns_query (r : Nat) (domain : Bytes) : Option Bytes :=
  match create_dns_query_header r none 0 0 0 0 1 0 0 0 1 0 0 0,
      create_dns_query_question domain 1 1 with
  | some h, some q => some (h ++ q)
  | _, _ => none

/-! ## Decoder: `src/dns_response.py` -/

/-- Big-endian 16-bit read used under an already-checked bound (the
`struct.unpack` slices); the default 0 is never reached there. -/
def get16 (buf : Bytes) (i : Nat) : Nat :=
  buf.getD i 0 * 256 + buf.getD (i + 1) 0

/-- Bounds-checked big-endian 16-bit read: `struct.unpack_from('!H', buf, i)`
raises `struct.error` when fewer than two bytes are available at `i`. -/
def get16q (buf : Bytes) (i : Nat) : Option Nat :=
  match buf.get? i, buf.get? (i + 1) with
  | some a, some b => some (a * 256 + b)
  | _, _ => none

/-- The six fields unpacked from the 12-byte header. -/
structure HeaderFields where
  transaction_id : Nat
  flags : Nat
  qdcount : Nat
  ancount : Nat
  nscount : Nat
  arcount : Nat
deriving DecidableEq

/-- Translation of `DNSResponse.parse_and_print_header` (dns_response.py
lines 16-68): `struct.unpack('>HHHHHH', response[:12])` raises
`struct.error` when the slice holds fewer than 12 bytes; otherwise the six
big-endian 16-bit fields are read and the cursor moves to 12. -/
def parse_and_print_header (response : Bytes) : Option HeaderFields :=
  if 12 ≤ response.length then
    some ⟨get16 response 0, get16 response 2, get16 response 4,
      get16 response 6, get16 response 8, get16 response 10⟩
  else none

/-- The eight flag fields extracted by mask-and-shift. -/
structure FlagFields where
  qr : Nat
  opcode : Nat
  aa : Nat
  tc : Nat
  rd : Nat
  ra : Nat
  z : Nat
  rcode : Nat
deriving DecidableEq

/-- Translation of the mask-and-shift flag extraction in
`DNSResponse.parse_and_print_header` (dns_response.py lines 50-57). -/
def unpackFlags (flags : Nat) : FlagFields :=
  ⟨(flags >>> 15) &&& 1, (flags >>> 11) &&& 15, (flags >>> 10) &&& 1,
   (flags >>> 9) &&& 1, (flags >>> 8) &&& 1, (flags >>> 7) &&& 1,
   (flags >>> 4) &&& 7, flags &&& 15⟩

/-- The 16-bit big-endian flags word of a query message as the encoder lays
it out: first packed byte, then second packed byte. -/
def packedFlagsWord (qr opcode aa tc rd ra z rcode : Nat) : Nat :=
  packFlagsByte1 qr opcode aa tc rd * 256 + packFlagsByte2 ra z rcode

/-- The question-section label loop of
`DNSResponse.parse_and_print_dns_question` (dns_response.py lines 93-97):
while the byte at the cursor is non-zero, treat it as a label length (no
check whatsoever of its value), slice out that many bytes, append them and a
dot to the domain, and advance past the length byte and the label.
`response[self.offset]` raises `IndexError` when the cursor passes the end.
The fuel argument only bounds the number of iterations; since every
iteration advances the cursor by at least one and the loop raises once the
cursor passes the end of the buffer, `response.length + 1` iterations always
suffice, and `parse_and_print_dns_question` below runs the loop with that
bound, which therefore never alters the result. -/
def questionLoopF (response : Bytes) : Nat → Nat → Bytes → Option (Bytes × Nat)
  | 0, _, _ => none
  | fuel + 1, offset, domain =>
    match response.get? offset with
    | none => none
    | some b =>
      if b = 0 then some (domain, offset)
      else
        questionLoopF response fuel (offset + b + 1)
          (domain ++ ((response.drop (offset + 1)).take b ++ [46]))

/-- The three fields of `DNSResponse` state written by question parsing:
the dotted domain (with a trailing dot), `domain_length` (the encoded name's
length including the terminator, line 100), and the cursor after skipping
the null byte and QTYPE/QCLASS (line 101, unchecked `offset += 5`). -/
structure QuestionResult where
  domain : Bytes
  domain_length : Nat
  offset : Nat
deriving DecidableEq

/-- Translation of `DNSResponse.parse_and_print_dns_question`
(dns_response.py lines 71-101), entered with the cursor at 12.  Note that
the `qtype`/`qclass` parameters of the Python method are print-only defaults;
nothing is read from the buffer's QTYPE/QCLASS bytes, which are skipped
blindly. -/
def parse_and_print_dns_question (response : Bytes) : Option QuestionResult :=
  (questionLoopF response (response.length + 1) 12 []).map
    fun res => ⟨res.1, res.2 - 12 + 1, res.2 + 5⟩

/-- Python `".".join(labels)` on the byte representation: no trailing dot. -/
def joinDots : List Bytes → Bytes
  | [] => []
  | [p] => p
  | p :: q :: ps => p ++ 46 :: joinDots (q :: ps)

/-- Translation of `DNSResponse.read_name` (dns_response.py lines 155-179).
A byte `≥ 0xC0` is a two-byte pointer: the name at the pointer target is
read recursively, but — exactly as in the source, where
`label, _ = self.read_name(response, pointer)` assigns a variable that is
never used afterwards — its labels are NOT added to the accumulated list,
and the loop breaks having consumed 2 bytes.  A zero byte ends the name
consuming 1 byte.  Any other byte is a label length.  The fuel parameter
bounds loop iterations and recursion depth together; Python's own bound is
the interpreter recursion limit (`RecursionError`), and `none` covers both
that and `IndexError`/`struct.error`. -/
def read_name (response : Bytes) : Nat → Nat → List Bytes → Option (Bytes × Nat)
  | 0, _, _ => none
  | fuel + 1, offset, labels =>
    match response.get? offset with
    | none => none
    | some length =>
      if 0xC0 ≤ length then
        match get16q response offset with
        | none => none
        | some w =>
          match read_name response fuel (w % 0x4000) [] with
          | none => none
          | some _ => some (joinDots labels, offset + 2)
      else if length = 0 then some (joinDots labels, offset + 1)
      else
        read_name response fuel (offset + 1 + length)
          (labels ++ [(response.drop (offset + 1)).take length])

/-- One iteration of the record loop shared verbatim by
`DNSResponse.parse_and_print_dns_answer` (dns_response.py lines 127-153),
`parse_and_print_authority_records` (lines 205-231) and
`parse_and_print_additional_records` (lines 242-268): skip the owner name
(2 bytes if the byte at the cursor is `≥ 0xC0`, else the cached
`domain_length`), unpack the 10 fixed bytes `>HHIH` (type, class, TTL,
RDLENGTH — class and TTL are print-only), advance 10, then branch on type:
type 1 checks the 4-byte A slice (`socket.inet_ntoa` raises unless its
argument is exactly 4 bytes) and advances by RDLENGTH; types 2 and 5 set the
cursor to whatever `read_name` returns; type 28 checks the 16-byte slice
(`socket.inet_ntop`), calls `read_name` discarding its result, and leaves
the cursor at the RDATA start; every other type falls through with the
cursor still at the RDATA start. -/
def answerRecordStep (response : Bytes) (domain_length fuel offset : Nat) :
    Option Nat :=
  match response.get? offset with
  | none => none
  | some b =>
    let o1 := if 0xC0 ≤ b then offset + 2 else offset + domain_length
    if o1 + 10 ≤ response.length then
      let ty := get16 response o1
      let rdlength := get16 response (o1 + 8)
      let o2 := o1 + 10
      if ty = 1 then
        if ((response.drop o2).take rdlength).length = 4 then
          some (o2 + rdlength)
        else none
      else if ty = 2 then (read_name response fuel o2 []).map Prod.snd
      else if ty = 5 then (read_name response fuel o2 []).map Prod.snd
      else if ty = 28 then
        if ((response.drop o2).take rdlength).length = 16 then
          (read_name response fuel o2 []).map fun _ => o2
        else none
      else some o2
    else none

/-- The `for _ in range(count)` loop around `answerRecordStep`. -/
def sectionLoop (response : Bytes) (domain_length fuel : Nat) :
    Nat → Nat → Option Nat
  | 0, offset => some offset
  | n + 1, offset =>
    match answerRecordStep response domain_length fuel offset with
    | none => none
    | some o2 => sectionLoop response domain_length fuel n o2

/-- Translation of `DNSResponse.parse_and_print_dns_answer`
(dns_response.py lines 103-153): the record loop run `ancount` times. -/
def parse_and_print_dns_answer (response : Bytes)
    (domain_length fuel ancount offset : Nat) : Option Nat :=
  sectionLoop response domain_length fuel ancount offset

/-- Translation of `DNSResponse.parse_and_print_authority_records`
(dns_response.py lines 181-231): identical record loop, run `nscount`
times. -/
def parse_and_print_authority_records (response : Bytes)
    (domain_length fuel nscount offset : Nat) : Option Nat :=
  sectionLoop response domain_length fuel nscount offset

/-- Translation of `DNSResponse.parse_and_print_additional_records`
(dns_response.py lines 233-268): identical record loop, run `arcount`
times. -/
def parse_and_print_additional_records (response : Bytes)
    (domain_length fuel arcount offset : Nat) : Option Nat :=
  sectionLoop response domain_length fuel arcount offset

/-- Translation of `DNSResponse.parse_and_print_dns_response`
(dns_response.py lines 270-293): header, question, answers, then authority
and additional sections only when their counts are positive.  The result is
the final cursor value. -/
def parse_and_print_dns_response (fuel : Nat) (response : Bytes) :
    Option Nat :=
  match parse_and_print_header response with
  | none => none
  | some h =>
    match parse_and_print_dns_question response with
    | none => none
    | some q =>
      match parse_and_print_dns_answer response q.domain_length fuel
          h.ancount q.offset with
      | none => none
      | some o1 =>
        match (if 0 < h.nscount then
            parse_and_print_authority_records response q.domain_length fuel
              h.nscount o1
          else some o1) with
        | none => none
        | some o2 =>
          if 0 < h.arcount then
            parse_and_print_additional_records response q.domain_length fuel
              h.arcount o2
          else some o2

/-! ## Concrete messages used by the theorems -/

/-- The compressed `facebook.com` A-record response recorded in the
repository's own test notes (src/dns_client.py lines 34-37), hex
`705f818000010001000000000866616365626f6f6b03636f6d0000010001c00c000100010000003c00041f0d5024`:
the question name `facebook.com` is encoded uncompressed at offset 12, and
the answer's owner name at offset 30 is the pointer `c0 0c` to offset 12. -/
def fbCompressedMsg : Bytes :=
  [112, 95, 129, 128, 0, 1, 0, 1, 0, 0, 0, 0,
   8, 102, 97, 99, 101, 98, 111, 111, 107, 3, 99, 111, 109, 0,
   0, 1, 0, 1,
   192, 12, 0, 1, 0, 1, 0, 0, 0, 60, 0, 4, 31, 13, 80, 36]

/-- A crafted message whose bytes at offset 12 are `c0 0c`: a compression
pointer whose target is offset 12 itself. -/
def selfPointerMsg : Bytes := List.replicate 12 0 ++ [192, 12]

/-- The UTF-8 bytes of `facebook.com`. -/
def fbDomain : Bytes := [102, 97, 99, 101, 98, 111, 111, 107, 46, 99, 111, 109]

/-- The dotted-name concatenation actually produced by the question loop:
each part followed by a dot byte. -/
def dotted : List Bytes → Bytes
  | [] => []
  | p :: ps => p ++ 46 :: dotted ps

/-- A 12-byte all-zero stand-in for an arbitrary message header. -/
def zeroHdr : Bytes := List.replicate 12 0

/-- A record whose owner name is a compression pointer and whose type is 15
(MX) with declared RDLENGTH 9; the buffer ends right after the fixed 10
bytes, so no RDATA bytes are present at all. -/
def mxRecordMsg : Bytes := [192, 12, 0, 15, 0, 1, 0, 0, 0, 0, 0, 9]

/-- A message whose question name contains the length byte 65 (`≥ 64`, top
two bits not both set) followed by 65 bytes: header, label `ab`, the 65-byte
label, terminator, QTYPE and QCLASS. -/
def longLabelMsg : Bytes :=
  List.replicate 12 0 ++ [2, 97, 98, 65] ++ List.replicate 65 97 ++
    [0, 0, 1, 0, 1]

/-- A 13-byte message: a full 12-byte header (qdcount 1, all other counts 0)
followed by a single zero byte, so the question's QTYPE and QCLASS fields
extend past the end of the buffer. -/
def truncatedQtypeMsg : Bytes := [0, 1, 129, 128, 0, 1, 0, 0, 0, 0, 0, 0, 0]

/-! ## Theorems -/

/-- C9: packing the flag values QR=1, OPCODE=0, AA=0, TC=0, RD=1, RA=1,
RCODE=0 (with Z=0) into the 16-bit big-endian flags word with the encoder's
bit layout and unpacking that word with the decoder's mask-and-shift layout
reproduces exactly the same bit values for every field. -/
theorem flags_roundtrip_qr_rd_ra :
    unpackFlags (packedFlagsWord 1 0 0 0 1 1 0 0) =
      ⟨1, 0, 0, 0, 1, 1, 0, 0⟩ := by decide

/-- C1: evaluating `read_name` at the failing input.  In the repository's
own compressed test message the answer's owner name at offset 30 is a
pointer to offset 12, where `facebook.com` is encoded uncompressed (second
conjunct); yet `read_name` returns the empty name, not `facebook.com.`,
because the labels recursively read at the pointer target are assigned to a
variable that is never appended to the label list. -/
theorem read_name_drops_pointer_labels :
    read_name fbCompressedMsg 16 30 [] = some ([], 32) ∧
    (fbCompressedMsg.drop 12).take 14 =
      [8, 102, 97, 99, 101, 98, 111, 111, 107, 3, 99, 111, 109, 0] := by
  decide

/-- C2: evaluating `read_name` at the failing input.  On the crafted message
whose 2-byte field at offset 12 is a pointer to offset 12 itself, the name
reader produces no result at any recursion depth: it recurses on the same
offset forever (Python aborts with `RecursionError`; there is no visited-set
and no `CompressionLoop` error anywhere in the code). -/
theorem read_name_self_pointer_never_returns (fuel : Nat) :
    read_name selfPointerMsg fuel 12 [] = none := by
  induction fuel with
  | zero => rfl
  | succ n ih =>
    have h1 : selfPointerMsg.get? 12 = some 192 := rfl
    have h2 : get16q selfPointerMsg 12 = some 49164 := rfl
    simp only [read_name, h1, h2]
    norm_num [ih]

/-- C3 counterexample: a record of type 15 (MX) whose declared RDLENGTH is 9.
The record step succeeds and leaves the cursor at 12, the start of the
RDATA, instead of advancing past it by RDLENGTH to 21 — no branch of the
type dispatch handles MX, TXT or unknown types, so the cursor is not
advanced and no error is raised even though the 9 declared RDATA bytes are
not in the buffer at all. -/
theorem mx_record_does_not_advance :
    answerRecordStep mxRecordMsg 0 0 0 = some 12 ∧
    get16 mxRecordMsg 10 = 9 ∧ (12 : Nat) ≠ 12 + 9 := by decide

/-- C3 amended: after the owner-name skip lands the fixed fields at `o1` and
the 10 fixed bytes are in range, a record whose type is not 1, 2, 5 or 28
leaves the cursor exactly at the start of the RDATA (`o1 + 10`); the cursor
is never advanced by RDLENGTH for such records.  (Type 1 alone advances by
RDLENGTH; types 2 and 5 move the cursor to whatever the name reader
returns; type 28 also stays at the RDATA start.) -/
theorem rdata_not_skipped_for_other_types (response : Bytes)
    (domain_length fuel offset b o1 : Nat)
    (hb : response.get? offset = some b)
    (ho1 : o1 = if 0xC0 ≤ b then offset + 2 else offset + domain_length)
    (hlen : o1 + 10 ≤ response.length)
    (h1 : get16 response o1 ≠ 1) (h2 : get16 response o1 ≠ 2)
    (h5 : get16 response o1 ≠ 5) (h28 : get16 response o1 ≠ 28) :
    answerRecordStep response domain_length fuel offset = some (o1 + 10) := by
  simp only [answerRecordStep, hb, ← ho1]
  rw [if_pos hlen, if_neg h1, if_neg h2, if_neg h5, if_neg h28]

/-- C3 witness: the amended statement evaluated on the concrete MX record. -/
theorem rdata_not_skipped_witness :
    answerRecordStep mxRecordMsg 0 0 0 = some (2 + 10) :=
  rdata_not_skipped_for_other_types mxRecordMsg 0 0 0 192 2 rfl (by decide)
    (by decide) (by decide) (by decide) (by decide) (by decide)

/-- C7 counterexample: a 13-byte message whose question-section QTYPE and
QCLASS fields extend past the end of the buffer decodes successfully (to
cursor 17, beyond the buffer) — decoding does not fail whenever the buffer
is shorter than a field's declared extent. -/
theorem truncated_qtype_decodes :
    parse_and_print_dns_response 1 truncatedQtypeMsg = some 17 ∧
    truncatedQtypeMsg.length = 13 := by decide

/-- C7 amended: for every buffer shorter than 12 bytes, decoding fails
(header unpacking raises; modelled as `none`) — though with a generic
struct-unpack error, as the code defines no `TruncatedMessage` error — and
never silently reads out of range at the header step. -/
theorem short_buffer_fails (fuel : Nat) (response : Bytes)
    (h : response.length < 12) :
    parse_and_print_dns_response fuel response = none := by
  have hh : parse_and_print_header response = none := by
    unfold parse_and_print_header
    rw [if_neg (by omega)]
  simp [parse_and_print_dns_response, hh]

/-- C7 witness: the amended statement evaluated on the empty buffer. -/
theorem short_buffer_fails_witness :
    parse_and_print_dns_response 0 [] = none :=
  short_buffer_fails 0 [] (by decide)

/-- C6 counterexample: a question whose name contains the length byte 65
(at least 64, top two bits not both set) parses successfully — the byte is
treated as an ordinary label length and 65 bytes are consumed as a label;
there is no `InvalidLabelLength` or `UnexpectedCompression` failure. -/
theorem long_label_parses :
    (parse_and_print_dns_question longLabelMsg).isSome = true ∧
    longLabelMsg.get? 15 = some 65 ∧ 64 ≤ 65 ∧ 65 < 0xC0 := by decide

/-- C6 amended: the question loop treats every non-zero byte at the cursor —
including bytes in [64, 0xC0) and pointer bytes at least 0xC0 — as an
ordinary label length, consuming one plus that many bytes and appending the
sliced label and a dot; no length-class check exists. -/
theorem any_nonzero_byte_is_label_length (response : Bytes)
    (fuel offset : Nat) (domain : Bytes) (b : Nat)
    (hb : response.get? offset = some b) (hb0 : b ≠ 0) :
    questionLoopF response (fuel + 1) offset domain =
      questionLoopF response fuel (offset + b + 1)
        (domain ++ ((response.drop (offset + 1)).take b ++ [46])) := by
  simp only [questionLoopF, hb]
  rw [if_neg hb0]

/-- C6 witness: the amended statement evaluated at the 65-length byte of the
concrete message. -/
theorem any_nonzero_byte_witness :
    questionLoopF longLabelMsg 4 15 [97, 98, 46] =
      questionLoopF longLabelMsg 3 (15 + 65 + 1)
        ([97, 98, 46] ++ ((longLabelMsg.drop 16).take 65 ++ [46])) :=
  any_nonzero_byte_is_label_length longLabelMsg 3 15 [97, 98, 46] 65
    (by decide) (by decide)

/-- C4 counterexample: a domain with a 64-byte label encodes successfully
(no `InvalidDomain` failure), and the domain `a.` with a trailing dot
encodes its trailing empty label as an extra zero byte rather than dropping
it. -/
theorem no_domain_validation :
    (create_dns_query_question (List.replicate 64 97) 1 1).isSome = true ∧
    create_dns_query_question [97, 46] 1 1 =
      some [1, 97, 0, 0, 0, 1, 0, 1] := by decide

/-- Helper: `encodeLabels` succeeds exactly when every part's length fits in
one byte. -/
theorem encodeLabels_isSome (parts : List Bytes) :
    (encodeLabels parts).isSome = true ↔ ∀ p ∈ parts, p.length ≤ 255 := by
  induction parts with
  | nil => simp [encodeLabels]
  | cons p ps ih => by_cases h : p.length ≤ 255 <;> simp [encodeLabels, h, ih]

/-- C4 amended: question encoding performs no domain validation and has no
`InvalidDomain` failure.  It succeeds exactly when every dot-separated part
(empty parts and parts of 64 or more bytes included; a trailing dot's empty
part is emitted as a zero byte, not dropped) has length at most 255 — the
only failures are a part whose length does not fit in the one-byte prefix
and a qtype or qclass that does not fit in 16 bits. -/
theorem question_encoding_succeeds_iff (domain : Bytes) (qt qc : Nat) :
    (create_dns_query_question domain qt qc).isSome = true ↔
      (∀ p ∈ splitOnDot domain, p.length ≤ 255) ∧
        qt < 65536 ∧ qc < 65536 := by
  rw [← encodeLabels_isSome]
  unfold create_dns_query_question toBytes2
  cases h : encodeLabels (splitOnDot domain) <;>
    by_cases hqt : qt < 65536 <;> by_cases hqc : qc < 65536 <;>
      simp [h, hqt, hqc]

/-- C4 witness: the amended statement evaluated at `facebook.com`. -/
theorem question_encoding_witness :
    (create_dns_query_question fbDomain 1 1).isSome = true :=
  (question_encoding_succeeds_iff fbDomain 1 1).mpr (by decide)

/-- C8 counterexample: two encoding calls with the same domain but distinct
random transaction-id draws produce different byte buffers, so encoding is
not a deterministic function of the domain and parameters alone. -/
theorem query_depends_on_draw :
    create_dns_query 0 fbDomain ≠ create_dns_query 1 fbDomain := by decide

/-- Helper: the query header with the default query arguments always
succeeds and consists of the two transaction-id bytes followed by ten bytes
that do not depend on the draw. -/
theorem create_dns_query_header_default (r : Nat) (id0 : Option Nat) :
    create_dns_query_header r id0 0 0 0 0 1 0 0 0 1 0 0 0 =
      some (beBytes2 (r % 65536) ++ [1, 0, 0, 1, 0, 0, 0, 0, 0, 0]) := by
  simp only [create_dns_query_header, generate_transaction_id]
  rw [if_pos ⟨Nat.mod_lt _ (by norm_num), by decide⟩]
  norm_num [packFlagsByte1, packFlagsByte2, beBytes2]

/-- C8 amended: the encoder draws a fresh random 16-bit transaction id on
every call, so two calls with the same domain agree on every byte after the
first two (which hold the id) and differ exactly when their draws differ
modulo 2^16; the decoder, with no randomness, is a pure function of the
buffer. -/
theorem query_tail_independent_of_draw (r1 r2 : Nat) (domain : Bytes) :
    (create_dns_query r1 domain).map (List.drop 2) =
      (create_dns_query r2 domain).map (List.drop 2) := by
  unfold create_dns_query
  rw [create_dns_query_header_default r1, create_dns_query_header_default r2]
  cases hq : create_dns_query_question domain 1 1 <;> simp [beBytes2]

/-- C10: the `id` argument of `create_dns_query_header` has no effect on the
output — the header is identical for any two argument values — and whenever
the header is produced, its transaction-id field (the first two bytes) is
the big-endian encoding of the fresh random draw, not of the argument. -/
theorem header_id_argument_ignored (r : Nat) (id1 id2 : Option Nat)
    (qr opcode aa tc rd ra z rcode qdcount ancount nscount arcount : Nat) :
    create_dns_query_header r id1 qr opcode aa tc rd ra z rcode qdcount
        ancount nscount arcount =
      create_dns_query_header r id2 qr opcode aa tc rd ra z rcode qdcount
        ancount nscount arcount ∧
    ∀ hdr, create_dns_query_header r id1 qr opcode aa tc rd ra z rcode
        qdcount ancount nscount arcount = some hdr →
      hdr.take 2 =
        [generate_transaction_id r / 256, generate_transaction_id r % 256] := by
  refine ⟨rfl, ?_⟩
  intro hdr h
  simp only [create_dns_query_header] at h
  split at h
  · cases h
    rfl
  · simp at h

/-- C10 witness: the statement evaluated at draw 5 with two different
explicit id arguments. -/
theorem header_id_argument_ignored_witness :
    create_dns_query_header 5 (some 7) 0 0 0 0 1 0 0 0 1 0 0 0 =
      create_dns_query_header 5 (some 9) 0 0 0 0 1 0 0 0 1 0 0 0 ∧
    List.take 2 [0, 5, 1, 0, 0, 1, 0, 0, 0, 0, 0, 0] =
      [generate_transaction_id 5 / 256, generate_transaction_id 5 % 256] :=
  ⟨(header_id_argument_ignored 5 (some 7) (some 9) 0 0 0 0 1 0 0 0 1 0 0 0).1,
   (header_id_argument_ignored 5 (some 7) (some 9) 0 0 0 0 1 0 0 0 1 0 0
      0).2 [0, 5, 1, 0, 0, 1, 0, 0, 0, 0, 0, 0] (by decide)⟩

/-- Helper: a successful `encodeLabels` run yields exactly the unguarded
label bytes. -/
theorem encodeLabels_eq_some {parts : List Bytes} {name : Bytes}
    (h : encodeLabels parts = some name) : name = encodeLabelsBytes parts := by
  induction parts generalizing name with
  | nil => simp [encodeLabels] at h; simp [encodeLabelsBytes, h.symm]
  | cons p ps ih =>
    by_cases hp : p.length ≤ 255
    · simp [encodeLabels, hp] at h
      obtain ⟨rest, hrest, hr⟩ := h
      simp [encodeLabelsBytes, ← ih hrest, hr.symm]
    · simp [encodeLabels, hp] at h

/-- Helper: at most one byte of fuel per encoded part is needed. -/
theorem length_le_encodeLabelsBytes (parts : List Bytes) :
    parts.length ≤ (encodeLabelsBytes parts).length := by
  induction parts with
  | nil => simp [encodeLabelsBytes]
  | cons p ps ih => simp [encodeLabelsBytes]; omega

/-- Helper: the first byte of what remains after dropping `n` bytes. -/
theorem get?_of_drop_cons {l : Bytes} {n b : Nat} {t : Bytes}
    (h : l.drop n = b :: t) : l.get? n = some b := by
  induction l generalizing n with
  | nil => simp at h
  | cons x xs ih =>
    cases n with
    | zero => simp at h; simp [h.1]
    | succ m =>
      simp only [List.drop_succ_cons] at h
      simpa using ih h

/-- Helper: running the question loop over a buffer holding the encoder's
label bytes followed by the terminator consumes exactly those bytes and
accumulates each part followed by a dot. -/
theorem questionLoopF_encoded (response : Bytes) (parts : List Bytes) :
    ∀ (fuel offset : Nat) (acc suffix : Bytes),
      (∀ p ∈ parts, 1 ≤ p.length) →
      response.drop offset = encodeLabelsBytes parts ++ 0 :: suffix →
      parts.length < fuel →
      questionLoopF response fuel offset acc =
        some (acc ++ dotted parts,
          offset + (encodeLabelsBytes parts).length) := by
  induction parts with
  | nil =>
    intro fuel offset acc suffix _ hdrop hfuel
    cases fuel with
    | zero => omega
    | succ f =>
      simp only [encodeLabelsBytes, List.nil_append] at hdrop
      simp only [questionLoopF]
      rw [get?_of_drop_cons hdrop]
      simp [dotted, encodeLabelsBytes]
  | cons p ps ih =>
    intro fuel offset acc suffix hne hdrop hfuel
    cases fuel with
    | zero => omega
    | succ f =>
      have hp : 1 ≤ p.length := hne p (by simp)
      have hdrop1 : response.drop offset =
          p.length :: (p ++ (encodeLabelsBytes ps ++ 0 :: suffix)) := by
        simpa [encodeLabelsBytes, List.append_assoc] using hdrop
      have hget : response.get? offset = some p.length :=
        get?_of_drop_cons hdrop1
      have hd1 : response.drop (offset + 1) =
          p ++ (encodeLabelsBytes ps ++ 0 :: suffix) := by
        rw [← List.drop_drop, hdrop1, List.drop_succ_cons, List.drop_zero]
      have hslice : (response.drop (offset + 1)).take p.length = p := by
        rw [hd1, List.take_left]
      have hd2 : response.drop (offset + p.length + 1) =
          encodeLabelsBytes ps ++ 0 :: suffix := by
        have : response.drop (offset + p.length + 1) =
            (response.drop (offset + 1)).drop p.length := by
          rw [List.drop_drop]
          congr 1
          omega
        rw [this, hd1, List.drop_left]
      have hrec := ih f (offset + p.length + 1)
        (acc ++ (p ++ [46])) suffix
        (fun q hq => hne q (by simp [hq])) hd2 (by simp at hfuel; omega)
      simp only [questionLoopF, hget]
      rw [if_neg (by omega), hslice, hrec]
      simp [dotted, encodeLabelsBytes, List.append_assoc]
      omega

/-- Helper: splitting never returns an empty list of parts. -/
theorem splitOnDot_ne_nil (d : Bytes) : splitOnDot d ≠ [] := by
  cases d with
  | nil => simp [splitOnDot]
  | cons b rest =>
    by_cases hb : b = 46
    · simp [splitOnDot, hb]
    · simp only [splitOnDot, if_neg hb]
      cases splitOnDot rest <;> simp

/-- Helper: joining the split parts with a dot after each part restores the
domain followed by one trailing dot. -/
theorem dotted_splitOnDot (d : Bytes) : dotted (splitOnDot d) = d ++ [46] := by
  induction d with
  | nil => rfl
  | cons b rest ih =>
    by_cases hb : b = 46
    · subst hb
      simp only [splitOnDot, if_pos rfl, dotted, List.nil_append]
      rw [ih]
      rfl
    · simp only [splitOnDot, if_neg hb]
      cases hs : splitOnDot rest with
      | nil => exact absurd hs (splitOnDot_ne_nil rest)
      | cons p ps =>
        rw [hs] at ih
        calc dotted ((b :: p) :: ps) = b :: dotted (p :: ps) := by
              simp [dotted]
          _ = b :: (rest ++ [46]) := by rw [ih]
          _ = (b :: rest) ++ [46] := by simp

/-- C5 amended: for every domain whose dot-separated parts are all
non-empty, every 12-byte header prefix, and every qtype/qclass for which
encoding succeeds, decoding the question section of the encoded buffer
yields the original dotted name with one trailing dot appended, the encoded
name's length including the terminator, and the cursor placed just past the
QTYPE/QCLASS bytes.  Only the name round-trips: the decoder never reads the
buffer's QTYPE/QCLASS values (see the counterexample). -/
theorem question_name_roundtrip (hdr domain q : Bytes) (qt qc : Nat)
    (hhdr : hdr.length = 12)
    (hne : ∀ p ∈ splitOnDot domain, 1 ≤ p.length)
    (henc : create_dns_query_question domain qt qc = some q) :
    parse_and_print_dns_question (hdr ++ q) =
      some ⟨domain ++ [46],
        (encodeLabelsBytes (splitOnDot domain)).length + 1,
        12 + (encodeLabelsBytes (splitOnDot domain)).length + 5⟩ := by
  unfold create_dns_query_question at henc
  cases hE : encodeLabels (splitOnDot domain) with
  | none => rw [hE] at henc; exact absurd henc (by simp)
  | some name =>
    cases hqtb : toBytes2 qt with
    | none => rw [hE, hqtb] at henc; exact absurd henc (by simp)
    | some qtb =>
      cases hqcb : toBytes2 qc with
      | none => rw [hE, hqtb, hqcb] at henc; exact absurd henc (by simp)
      | some qcb =>
        rw [hE, hqtb, hqcb] at henc
        simp only [Option.some.injEq] at henc
        have hname : name = encodeLabelsBytes (splitOnDot domain) :=
          encodeLabels_eq_some hE
        subst hname
        subst henc
        have hdrop :
            (hdr ++ (encodeLabelsBytes (splitOnDot domain) ++
              0 :: (qtb ++ qcb))).drop 12 =
            encodeLabelsBytes (splitOnDot domain) ++ 0 :: (qtb ++ qcb) := by
          rw [← hhdr, List.drop_left]
        have h1 := length_le_encodeLabelsBytes (splitOnDot domain)
        have hfuel : (splitOnDot domain).length <
            (hdr ++ (encodeLabelsBytes (splitOnDot domain) ++
              0 :: (qtb ++ qcb))).length + 1 := by
          simp only [List.length_append, List.length_cons]
          omega
        have hrun := questionLoopF_encoded
          (hdr ++ (encodeLabelsBytes (splitOnDot domain) ++
            0 :: (qtb ++ qcb)))
          (splitOnDot domain)
          ((hdr ++ (encodeLabelsBytes (splitOnDot domain) ++
            0 :: (qtb ++ qcb))).length + 1)
          12 [] (qtb ++ qcb) hne hdrop hfuel
        unfold parse_and_print_dns_question
        rw [hrun]
        simp only [Option.map_some', List.nil_append, dotted_splitOnDot,
          Option.some.injEq, QuestionResult.mk.injEq]
        exact ⟨trivial, by omega, trivial⟩

/-- C5 counterexample: the qtype does not round-trip.  Encoding
`facebook.com` with qtype 1 and with qtype 2 produces different buffers,
yet decoding the question section of the two buffers yields identical
results — the decoder skips the QTYPE/QCLASS bytes without reading them, so
no decoded value can equal the original qtype for both encodings. -/
theorem qtype_not_recovered :
    create_dns_query_question fbDomain 1 1 ≠
      create_dns_query_question fbDomain 2 1 ∧
    Option.map (fun q => parse_and_print_dns_question (zeroHdr ++ q))
        (create_dns_query_question fbDomain 1 1) =
      Option.map (fun q => parse_and_print_dns_question (zeroHdr ++ q))
        (create_dns_query_question fbDomain 2 1) := by decide

/-- C5 witness: the amended round-trip evaluated at `facebook.com` with
qtype 1 and qclass 1 under an all-zero header. -/
theorem question_name_roundtrip_witness :
    parse_and_print_dns_question (zeroHdr ++
        [8, 102, 97, 99, 101, 98, 111, 111, 107, 3, 99, 111, 109, 0,
         0, 1, 0, 1]) =
      some ⟨fbDomain ++ [46],
        (encodeLabelsBytes (splitOnDot fbDomain)).length + 1,
        12 + (encodeLabelsBytes (splitOnDot fbDomain)).length + 5⟩ :=
  question_name_roundtrip zeroHdr fbDomain
    [8, 102, 97, 99, 101, 98, 111, 111, 107, 3, 99, 111, 109, 0, 0, 1, 0, 1]
    1 1 (by decide) (by decide) (by decide)
